import Mathlib

/-!
Verification of the sharing coordination engine of
`txdav/common/datastore/sql_sharing.py` (calendarserver SQL store sharing).

The Python module is shallowly embedded: the bind table, the per-principal
homes with their in-memory child index, the notification inboxes, the
federation conduit and the deferred side effects (cache invalidation,
change notifications, sync-token operations) are modelled as one explicit
`Store` record; every sharing operation is a pure function from stores to
stores.  Side effects additionally append to a chronological `trace`, so
ordering and frame properties are statable.
-/

set_option maxHeartbeats 1000000

namespace SqlSharing

/-- Bind modes, from `sql_tables` (`_BIND_MODE_OWN`, `_BIND_MODE_READ`,
`_BIND_MODE_WRITE`, `_BIND_MODE_DIRECT`, `_BIND_MODE_INDIRECT`). -/
inductive BindMode where
  | own
  | read
  | write
  | direct
  | indirect
deriving DecidableEq, Repr

/-- Bind statuses, from `sql_tables` (`_BIND_STATUS_INVITED`, `_BIND_STATUS_ACCEPTED`,
`_BIND_STATUS_DECLINED`, `_BIND_STATUS_INVALID`, `_BIND_STATUS_DELETED`). -/
inductive BindStatus where
  | invited
  | accepted
  | declined
  | invalid
  | deleted
deriving DecidableEq, Repr

/-- One row of the bind table (the columns used by `sql_sharing.py`:
HOME_RESOURCE_ID, RESOURCE_ID, EXTERNAL_ID, RESOURCE_NAME, BIND_MODE,
BIND_STATUS, MESSAGE, BIND_REVISION).  The same record doubles as the
in-memory sharee view attributes `_bindMode`, `_bindStatus`, `_bindMessage`,
`_name`, kept in sync with the row exactly as the Python code does. -/
structure BindRecord where
  homeResourceID : Nat
  resourceID : Nat
  externalID : Option Nat
  name : String
  mode : BindMode
  status : BindStatus
  message : Option String
  revision : Option Nat
deriving DecidableEq, Repr

/-- A principal's home: UID, resource id, whether it is an external (cross-pod
shadow) home, and the in-memory active child index `_children`, keyed both by
resource name and by resource id. -/
structure Home where
  uid : String
  resourceID : Nat
  external : Bool
  childNames : List String
  childIDs : List Nat
deriving DecidableEq, Repr

/-- A notification inbox entry, as written by `writeNotificationObject`:
the inbox owner's UID, the notification UID, the notification type tag
("invite-notification" or "invite-reply"), and the payload fields the
sharing code varies (status, summary). -/
structure Notification where
  inboxUID : String
  uid : String
  ntype : String
  status : BindStatus
  summary : Option String
deriving DecidableEq, Repr

/-- The column map passed to `_updateBindColumnsQuery`: which bind columns a
given UPDATE writes, and the written values.  `message` is doubly optional
because the MESSAGE column itself is nullable. -/
structure ColumnMap where
  mode : Option BindMode := none
  status : Option BindStatus := none
  message : Option (Option String) := none
  revision : Option Nat := none
deriving DecidableEq, Repr

def ColumnMap.isEmpty (cm : ColumnMap) : Bool :=
  cm.mode.isNone && cm.status.isNone && cm.message.isNone && cm.revision.isNone

/-- Chronological trace of all effects a sharing operation performs:
bind-table writes, notification inbox writes/removals, conduit sends,
query-cache invalidations, change notifications, sync-token operations and
the first-share (`newShare`) hook. -/
inductive Event where
  | bindInsert (b : BindRecord)
  | bindUpdate (resourceID homeID : Nat) (cols : ColumnMap)
  | bindDelete (resourceID homeID : Nat)
  | noteWrite (n : Notification)
  | noteRemove (inboxUID uid : String)
  | conduitInvite (ownerUID : String) (resourceID : Nat)
      (shareName shareeUID shareUID : String) (mode : BindMode) (message : Option String)
  | conduitUninvite (ownerUID : String) (resourceID : Nat) (shareeUID shareUID : String)
  | conduitReply (ownerUID shareeUID shareUID : String) (status : BindStatus)
      (summary : Option String)
  | invalidateCache (homeID resourceID : Nat)
  | notifyPropertyChanged (resourceID : Nat)
  | notifyChanged (homeID : Nat)
  | initSyncToken (homeID resourceID : Nat)
  | deletedSyncToken (homeID resourceID : Nat)
  | newShareHook (homeID resourceID : Nat)
deriving DecidableEq, Repr

/-- Errors raised by the sharing code: `ExternalShareFailed` and
`HomeChildNameAlreadyExistsError` (the "NameConflict" of the spec). -/
inductive SharingError where
  | externalShareFailed
  | homeChildNameAlreadyExists
deriving DecidableEq, Repr

/-- The whole observable state: bind table, homes (with child indexes),
notification inboxes, effect trace, the per-view display-name property store
(homeResourceID, resourceID, display name), the directory of known principal
UIDs (UID, hosted-externally?) used when a home is created on demand, and
counters for fresh resource ids / share names / sync revisions. -/
structure Store where
  binds : List BindRecord
  homes : List Home
  notifications : List Notification
  trace : List Event
  props : List (Nat × Nat × String)
  directory : List (String × Bool)
  nextRID : Nat
  nextName : Nat
  nextRev : Nat
deriving DecidableEq, Repr

/-! ### Lookup helpers over the store -/

def findHomeByUID (st : Store) (uid : String) : Option Home :=
  st.homes.find? (fun h => h.uid == uid)

def findHomeByRID (st : Store) (rid : Nat) : Option Home :=
  st.homes.find? (fun h => h.resourceID == rid)

/-- `allChildWithID` seen from the bind table: the bind row joining a
resource to a consuming home, any status. -/
def findBind (st : Store) (resourceID homeID : Nat) : Option BindRecord :=
  st.binds.find? (fun b => b.resourceID == resourceID && b.homeResourceID == homeID)

/-- The owner's own bind row for a resource (mode OWN). -/
def ownBind (st : Store) (resourceID : Nat) : Option BindRecord :=
  st.binds.find? (fun b => b.resourceID == resourceID && b.mode == BindMode.own)

/-- `self.ownerHome()`: the home holding the OWN bind of the resource. -/
def ownerHomeOf (st : Store) (resourceID : Nat) : Option Home :=
  match ownBind st resourceID with
  | some ob => findHomeByRID st ob.homeResourceID
  | none => none

/-- Modelled from the spec: `homeWithUID(type, uid, create=True)` lives outside
this module (sql.py); per the spec it resolves the principal's home, creating
one on first contact when the directory knows the principal; the directory
decides whether the new home is local or an external shadow. -/
def homeWithUIDCreate (st : Store) (uid : String) : Store × Option Home :=
  match findHomeByUID st uid with
  | some h => (st, some h)
  | none =>
    match st.directory.find? (fun p => p.fst == uid) with
    | some p =>
      let h : Home := { uid := uid, resourceID := st.nextRID, external := p.snd,
                        childNames := [], childIDs := [] }
      ({ st with homes := h :: st.homes, nextRID := st.nextRID + 1 }, some h)
    | none => (st, none)

/-- Modelled from the spec: `anyObjectWithShareUID` (sql.py) resolves a shared
bind in a home by its share UID (= the bind's resource name), irrespective of
its status. -/
def anyObjectWithShareUID (st : Store) (home : Home) (shareUID : String) : Option BindRecord :=
  st.binds.find? (fun b =>
    b.homeResourceID == home.resourceID && b.name == shareUID && !(b.mode == BindMode.own))

/-! ### Primitive effects -/

def emit (st : Store) (e : Event) : Store :=
  { st with trace := st.trace ++ [e] }

def insertBindRow (st : Store) (b : BindRecord) : Store :=
  emit { st with binds := b :: st.binds } (Event.bindInsert b)

def applyColumnMap (b : BindRecord) (cm : ColumnMap) : BindRecord :=
  { b with
    mode := cm.mode.getD b.mode,
    status := cm.status.getD b.status,
    message := cm.message.getD b.message,
    revision := match cm.revision with | some r => some r | none => b.revision }

def updateBindColumns (st : Store) (resourceID homeID : Nat) (cm : ColumnMap) : Store :=
  emit
    { st with binds := st.binds.map (fun b =>
        if b.resourceID == resourceID && b.homeResourceID == homeID then
          applyColumnMap b cm
        else b) }
    (Event.bindUpdate resourceID homeID cm)

def deleteBindRow (st : Store) (resourceID homeID : Nat) : Store :=
  emit
    { st with binds := st.binds.filter (fun b =>
        !(b.resourceID == resourceID && b.homeResourceID == homeID)) }
    (Event.bindDelete resourceID homeID)

/-- `writeNotificationObject` on a notifications collection: replaces any
existing entry with the same UID in the same inbox. -/
def writeNotificationObject (st : Store) (n : Notification) : Store :=
  emit
    { st with notifications :=
        (st.notifications.filter (fun m => !(m.inboxUID == n.inboxUID && m.uid == n.uid))) ++ [n] }
    (Event.noteWrite n)

def removeNotificationObjectWithUID (st : Store) (inboxUID uid : String) : Store :=
  emit
    { st with notifications :=
        st.notifications.filter (fun m => !(m.inboxUID == inboxUID && m.uid == uid)) }
    (Event.noteRemove inboxUID uid)

/-- `self._home._children[name] = self; self._home._children[rid] = self` -/
def Home.addChild (h : Home) (name : String) (rid : Nat) : Home :=
  { h with
    childNames := if h.childNames.contains name then h.childNames else name :: h.childNames,
    childIDs := if h.childIDs.contains rid then h.childIDs else rid :: h.childIDs }

/-- `self._home._children.pop(name, None); self._home._children.pop(rid, None)` -/
def Home.popChild (h : Home) (name : String) (rid : Nat) : Home :=
  { h with
    childNames := h.childNames.filter (fun s => !(s == name)),
    childIDs := h.childIDs.filter (fun i => !(i == rid)) }

def updateHome (st : Store) (homeID : Nat) (f : Home → Home) : Store :=
  { st with homes := st.homes.map (fun h => if h.resourceID == homeID then f h else h) }

/-- `invalidateQueryCache` (lines 1247-1254): invalidates the cached query
results keyed on this bind record (metadata key, name key, resource-id key and
external-id key); modelled as one invalidation event keyed on the bind. -/
def invalidateQueryCache (st : Store) (sv : BindRecord) : Store :=
  emit st (Event.invalidateCache sv.homeResourceID sv.resourceID)

def notifyPropertyChanged (st : Store) (resourceID : Nat) : Store :=
  emit st (Event.notifyPropertyChanged resourceID)

def notifyChanged (st : Store) (homeID : Nat) : Store :=
  emit st (Event.notifyChanged homeID)

/-- Modelled from the spec: `_initSyncToken` (sql.py) creates the sync token
for a newly visible shared view; the store's revision counter advances. -/
def initSyncToken (st : Store) (sv : BindRecord) : Store :=
  emit { st with nextRev := st.nextRev + 1 } (Event.initSyncToken sv.homeResourceID sv.resourceID)

/-- Modelled from the spec: `_deletedSyncToken(sharedRemoval=True)` (sql.py)
marks the prior sync state of the view as a removal. -/
def deletedSyncToken (st : Store) (sv : BindRecord) : Store :=
  emit st (Event.deletedSyncToken sv.homeResourceID sv.resourceID)

/-- `_initBindRevision` (lines 941-955): snapshot the view's sync-token
revision into the BIND_REVISION column, then invalidate the query cache. -/
def initBindRevision (st : Store) (sv : BindRecord) : Store × BindRecord :=
  let rev := st.nextRev
  let sv' := { sv with revision := some rev }
  let st := updateBindColumns st sv.resourceID sv.homeResourceID { revision := some rev }
  (invalidateQueryCache st sv', sv')

/-! ### View-level observers -/

/-- Modelled from the spec: `external()` on a shared view (sql.py) — a view is
federated exactly when the owner side of the share is hosted on another pod,
i.e. the owner home is an external shadow. -/
def viewExternal (st : Store) (sv : BindRecord) : Bool :=
  match ownerHomeOf st sv.resourceID with
  | some oh => oh.external
  | none => false

/-- `shareeView.viewerHome().external()` -/
def viewerHomeExternal (st : Store) (sv : BindRecord) : Bool :=
  match findHomeByRID st sv.homeResourceID with
  | some h => h.external
  | none => false

/-- The DisplayName property of a sharee's view of the resource, from the
per-user property store (external collaborator). -/
def displayNameProp (st : Store) (sv : BindRecord) : Option String :=
  (st.props.find? (fun p => p.fst == sv.homeResourceID && p.snd.fst == sv.resourceID)).map
    (fun p => p.snd.snd)

/-- Python `str(x)` applied to an optional string (`str(None)` is `"None"`). -/
def strOfOpt : Option String → String
  | some s => s
  | none => "None"

/-- `shareeView(shareeUID)` (lines 641-657): the sharee's counterpart view of
this owned resource — never the owner's own view; `None` when the sharee home
or the bind does not exist. -/
def shareeViewOf (st : Store) (ownerView : BindRecord) (shareeUID : String) : Option BindRecord :=
  match findHomeByRID st ownerView.homeResourceID with
  | none => none
  | some ownerH =>
    if ownerH.uid = shareeUID then none
    else
      match findHomeByUID st shareeUID with
      | none => none
      | some shareeHome => findBind st ownerView.resourceID shareeHome.resourceID

/-! ### Notification senders (lines 501-574) -/

/-- `_sendInviteNotification(shareeView, notificationState=None)`
(lines 501-532), called on the owner's view: writes an
"invite-notification"-typed object into the sharee's inbox under the share
UID; when the notification state is DELETED the summary is the sharee's
DisplayName property (string-coerced share message when absent). -/
def sendInviteNotification (st : Store) (sv : BindRecord) (notificationState : Option BindStatus) :
    Store :=
  let displayname : Option String :=
    match notificationState with
    | some BindStatus.deleted =>
        some (match displayNameProp st sv with
              | some d => d
              | none => strOfOpt sv.message)
    | _ => sv.message
  match findHomeByRID st sv.homeResourceID with
  | none => st
  | some viewerH =>
    writeNotificationObject st
      { inboxUID := viewerH.uid, uid := sv.name, ntype := "invite-notification",
        status := notificationState.getD sv.status, summary := displayname }

/-- `_sendReplyNotification(ownerView, summary=None)` (lines 535-563), called
on the sharee's view: writes an "invite-reply"-typed object into the owner's
inbox under `<shareUID>-reply`, carrying the view's current status. -/
def sendReplyNotification (st : Store) (sv : BindRecord) (summary : Option String) : Store :=
  match ownerHomeOf st sv.resourceID with
  | none => st
  | some oh =>
    writeNotificationObject st
      { inboxUID := oh.uid, uid := sv.name ++ "-reply", ntype := "invite-reply",
        status := sv.status, summary := summary }

/-- `_removeInviteNotification(shareeView)` (lines 566-574): removes the
pending notification with the share's UID from the sharee's inbox. -/
def removeInviteNotification (st : Store) (sv : BindRecord) : Store :=
  match findHomeByRID st sv.homeResourceID with
  | none => st
  | some viewerH => removeNotificationObjectWithUID st viewerH.uid sv.name

/-! ### Federation conduit sends (lines 580-622) -/

/-- `_sendExternalInvite(shareeView)` (lines 580-595). -/
def sendExternalInvite (st : Store) (ownerView sv : BindRecord) : Store :=
  match ownerHomeOf st sv.resourceID, findHomeByRID st sv.homeResourceID with
  | some oh, some vh =>
      emit st (Event.conduitInvite oh.uid ownerView.resourceID ownerView.name vh.uid
        sv.name sv.mode sv.message)
  | _, _ => st

/-- `_sendExternalUninvite(shareeView)` (lines 598-608). -/
def sendExternalUninvite (st : Store) (ownerView sv : BindRecord) : Store :=
  match ownerHomeOf st sv.resourceID, findHomeByRID st sv.homeResourceID with
  | some oh, some vh =>
      emit st (Event.conduitUninvite oh.uid ownerView.resourceID vh.uid sv.name)
  | _, _ => st

/-- `_replyExternalInvite(status, summary=None)` (lines 611-622). -/
def replyExternalInvite (st : Store) (sv : BindRecord) (status : BindStatus)
    (summary : Option String) : Store :=
  match ownerHomeOf st sv.resourceID, findHomeByRID st sv.homeResourceID with
  | some oh, some vh =>
      emit st (Event.conduitReply oh.uid vh.uid sv.name status summary)
  | _, _ => st

/-! ### The state machine (lines 778-889) -/

/-- `_previousAcceptCount` (lines 842-843): the base class always reports 1. -/
def previousAcceptCount : Nat := 1

/-- `_changedStatus(previouslyAcceptedCount)` (lines 846-856): on entering
ACCEPTED initialize the sync token and bind revision and index the view in
the home's `_children` under both its name and its resource id; on entering
INVITED or DECLINED tear the sync token down as a shared removal and evict
both keys from the index. -/
def changedStatus (st : Store) (sv : BindRecord) (prevAccepted : Nat) : Store × BindRecord :=
  let _ := prevAccepted
  if sv.status = BindStatus.accepted then
    let st := initSyncToken st sv
    let p := initBindRevision st sv
    let st := updateHome p.fst sv.homeResourceID (fun h => h.addChild sv.name sv.resourceID)
    (st, p.snd)
  else if sv.status = BindStatus.invited ∨ sv.status = BindStatus.declined then
    let st := deletedSyncToken st sv
    let st := updateHome st sv.homeResourceID (fun h => h.popChild sv.name sv.resourceID)
    (st, sv)
  else
    (st, sv)

/-- `updateShare(shareeView, mode=None, status=None, summary=None)`
(lines 778-839): compute the column diff against the sharee view's current
attributes; when nonempty, write exactly those columns, mirror them onto the
in-memory view, run `_changedStatus` when the status column changed, then
invalidate the query cache and notify both the owner resource and the
sharee's home.  An empty diff does nothing at all. -/
def updateShare (st : Store) (sv : BindRecord) (mode : Option BindMode)
    (status : Option BindStatus) (summary : Option String) : Store × BindRecord :=
  let cm : ColumnMap :=
    { mode := match mode with
        | some m => if m ≠ sv.mode then some m else none
        | none => none,
      status := match status with
        | some s => if s ≠ sv.status then some s else none
        | none => none,
      message := match summary with
        | some m => if some m ≠ sv.message then some (some m) else none
        | none => none }
  if cm.isEmpty then (st, sv)
  else
    let st := updateBindColumns st sv.resourceID sv.homeResourceID cm
    let sv := applyColumnMap sv cm
    let p := if cm.status.isSome then changedStatus st sv previousAcceptCount else (st, sv)
    let st := invalidateQueryCache p.fst p.snd
    let st := notifyPropertyChanged st p.snd.resourceID
    let st := notifyChanged st p.snd.homeResourceID
    (st, p.snd)

/-- `removeShare(shareeView)` (lines 859-889): tear down the sync token as a
shared removal, evict the view from the home's child index, notify both
sides, hard-delete the bind row and invalidate the cache. -/
def removeShare (st : Store) (sv : BindRecord) : Store :=
  let st := deletedSyncToken st sv
  let st := updateHome st sv.homeResourceID (fun h => h.popChild sv.name sv.resourceID)
  let st := notifyPropertyChanged st sv.resourceID
  let st := notifyChanged st sv.homeResourceID
  let st := deleteBindRow st sv.resourceID sv.homeResourceID
  invalidateQueryCache st sv

/-- `setShared(shared)` (lines 992-1020), on the owner's own view: flip the
"shared" MESSAGE marker on the OWN bind, only when it actually changes. -/
def setShared (st : Store) (ownerView : BindRecord) (shared : Bool) : Store × BindRecord :=
  let newMessage : Option String := if shared then some ("shared") else none
  if ownerView.message = newMessage then (st, ownerView)
  else
    let ownerView' := { ownerView with message := newMessage }
    let st := updateBindColumns st ownerView.resourceID ownerView.homeResourceID
      { message := some newMessage }
    let st := invalidateQueryCache st ownerView'
    (notifyPropertyChanged st ownerView.resourceID, ownerView')

/-- `newShareName` (lines 968-972): a fresh UUID; modelled by a counter. -/
def newShareName (st : Store) : Store × String :=
  ({ st with nextName := st.nextName + 1 }, "uuid-" ++ toString st.nextName)

/-- `shareWith(shareeHome, mode, status=None, summary=None, shareName=None)`
(lines 689-756).  `status` defaults to ACCEPTED.  The insert runs in a
retryable sub-transaction whose retries are exhausted (`AllRetriesFailed`)
exactly when a bind row for this (resource, sharee home) pair already exists
(the uniqueness-constraint create race); in that case the existing row is
re-read (`allChildWithID`) and `updateShare` is applied with the requested
values, and the existing row's name is the result.  On a successful insert
with ACCEPTED status the new view's sync token and bind revision are
initialized (the re-read of the new view by its share UID returns the row
just inserted).  Either way the owner is marked shared and change
notifications are raised on both homes.  Returns the assigned bind name and
the sharee's resulting bind row. -/
def shareWith (st : Store) (ownerView : BindRecord) (shareeHome : Home) (mode : BindMode)
    (status : Option BindStatus) (summary : Option String) (shareName : Option String) :
    Store × BindRecord × String :=
  let status := status.getD BindStatus.accepted
  let r :=
    match findBind st ownerView.resourceID shareeHome.resourceID with
    | some child =>
        let p := updateShare st child (some mode) (some status) summary
        (p.fst, p.snd, p.snd.name)
    | none =>
        let q := match shareName with
          | some n => (st, n)
          | none => newShareName st
        let newBind : BindRecord :=
          { homeResourceID := shareeHome.resourceID,
            resourceID := ownerView.resourceID,
            externalID := ownerView.externalID,
            name := q.snd, mode := mode, status := status,
            message := summary, revision := none }
        let st := insertBindRow q.fst newBind
        let p :=
          if status = BindStatus.accepted then
            let st := initSyncToken st newBind
            initBindRevision st newBind
          else (st, newBind)
        (p.fst, p.snd, q.snd)
  let st := (setShared r.fst ownerView true).fst
  let st := notifyPropertyChanged st ownerView.resourceID
  let st := notifyChanged st shareeHome.resourceID
  (st, r.snd.fst, r.snd.snd)

/-- `createShare(shareeUID, mode, summary=None, shareName=None)`
(lines 759-775): resolve or create the sharee's home, then `shareWith` with
status INVITED for invited modes and ACCEPTED for direct mode; the returned
sharee view re-read by `shareeView(shareeUID)` is the bind `shareWith` just
wrote. -/
def createShare (st : Store) (ownerView : BindRecord) (shareeUID : String) (mode : BindMode)
    (summary : Option String) (shareName : Option String) : Store × Option BindRecord :=
  match homeWithUIDCreate st shareeUID with
  | (st, none) => (st, none)
  | (st, some shareeHome) =>
      let p := shareWith st ownerView shareeHome mode
        (some (if mode ≠ BindMode.direct then BindStatus.invited else BindStatus.accepted))
        summary shareName
      (p.fst, some p.snd.fst)

/-- `inviteUIDToShare(shareeUID, mode, summary=None, shareName=None)`
(lines 336-364): update an existing bind — forcing the status back to
INVITED only when it was DECLINED or INVALID — or create a new INVITED one;
then federate the invite when the sharee home is external, otherwise write
the invite notification into the sharee's inbox. -/
def inviteUIDToShare (st : Store) (ownerView : BindRecord) (shareeUID : String)
    (mode : BindMode) (summary : Option String) (shareName : Option String) :
    Store × Option BindRecord :=
  let p :=
    match shareeViewOf st ownerView shareeUID with
    | some sv =>
        let status := if sv.status = BindStatus.declined ∨ sv.status = BindStatus.invalid
          then some BindStatus.invited else none
        let q := updateShare st sv (some mode) status summary
        (q.fst, some q.snd)
    | none => createShare st ownerView shareeUID mode summary shareName
  match p with
  | (st, none) => (st, none)
  | (st, some sv) =>
      if viewerHomeExternal st sv then (sendExternalInvite st ownerView sv, some sv)
      else (sendInviteNotification st sv none, some sv)

/-- `directShareWithUser(shareeUID, shareName=None)` (lines 367-390): a no-op
when a bind already exists; otherwise create a DIRECT share, run the
first-share `newShare` hook, and federate the invite when the sharee home is
external.  No notification is written. -/
def directShareWithUser (st : Store) (ownerView : BindRecord) (shareeUID : String)
    (shareName : Option String) : Store × Option BindRecord :=
  match shareeViewOf st ownerView shareeUID with
  | some sv => (st, some sv)
  | none =>
      match createShare st ownerView shareeUID BindMode.direct none shareName with
      | (st, none) => (st, none)
      | (st, some sv) =>
          let st := emit st (Event.newShareHook sv.homeResourceID sv.resourceID)
          let st := if viewerHomeExternal st sv then sendExternalInvite st ownerView sv else st
          (st, some sv)

/-- `uninviteUIDFromShare(shareeUID)` (lines 393-417): federate the uninvite
when the sharee home is external; otherwise, for non-direct shares, remove
the pending invite notification when the status is not ACCEPTED, or write a
DELETED-state invite notification when it is; finally remove the bind.  A
missing bind makes the whole call a no-op. -/
def uninviteUIDFromShare (st : Store) (ownerView : BindRecord) (shareeUID : String) : Store :=
  match shareeViewOf st ownerView shareeUID with
  | none => st
  | some sv =>
      let st :=
        if viewerHomeExternal st sv then sendExternalUninvite st ownerView sv
        else
          if ¬(sv.mode = BindMode.direct) then
            if sv.status ≠ BindStatus.accepted then removeInviteNotification st sv
            else sendInviteNotification st sv (some BindStatus.deleted)
          else st
      removeShare st sv

/-- `acceptShare(summary=None)` on the sharee's view (lines 420-434): a no-op
for direct or already-accepted binds; otherwise reply over the conduit first
when federated, apply the ACCEPTED transition through the owner's
`updateShare`, run the `newShare` hook, and write the reply notification to
the owner's inbox only when the owner is not external. -/
def acceptShare (st : Store) (sv : BindRecord) (summary : Option String) : Store × BindRecord :=
  if sv.mode ≠ BindMode.direct ∧ sv.status ≠ BindStatus.accepted then
    let ext := viewExternal st sv
    let st := if ext then replyExternalInvite st sv BindStatus.accepted summary else st
    let p := updateShare st sv none (some BindStatus.accepted) none
    let st := emit p.fst (Event.newShareHook p.snd.homeResourceID p.snd.resourceID)
    if ext then (st, p.snd) else (sendReplyNotification st p.snd summary, p.snd)
  else (st, sv)

/-- `declineShare()` on the sharee's view (lines 436-448): a no-op for direct
or already-declined binds; otherwise reply over the conduit first when
federated, apply the DECLINED transition through the owner's `updateShare`,
and write the reply notification to the owner's inbox only when the owner is
not external. -/
def declineShare (st : Store) (sv : BindRecord) : Store × BindRecord :=
  if sv.mode ≠ BindMode.direct ∧ sv.status ≠ BindStatus.declined then
    let ext := viewExternal st sv
    let st := if ext then replyExternalInvite st sv BindStatus.declined none else st
    let p := updateShare st sv none (some BindStatus.declined) none
    if ext then (p.fst, p.snd) else (sendReplyNotification p.fst p.snd none, p.snd)
  else (st, sv)

/-- `deleteShare()` on the sharee's view (lines 451-463): remove outright for
direct shares (replying DECLINED over the conduit when the owner is
external), decline otherwise. -/
def deleteShare (st : Store) (sv : BindRecord) : Store :=
  let ext := viewExternal st sv
  if sv.mode = BindMode.direct then
    let st := removeShare st sv
    if ext then replyExternalInvite st sv BindStatus.declined none else st
  else (declineShare st sv).fst

/-- Home-level `acceptShare(shareUID, summary=None)` (lines 50-60). -/
def homeAcceptShare (st : Store) (home : Home) (shareUID : String) (summary : Option String) :
    Store × Option BindRecord :=
  match anyObjectWithShareUID st home shareUID with
  | some sv => let p := acceptShare st sv summary; (p.fst, some p.snd)
  | none => (st, none)

/-- Home-level `declineShare(shareUID)` (lines 63-73). -/
def homeDeclineShare (st : Store) (home : Home) (shareUID : String) : Store × Bool :=
  match anyObjectWithShareUID st home shareUID with
  | some sv => ((declineShare st sv).fst, true)
  | none => (st, false)

/-! ### Invitation listing (lines 204-207, 488-498, 909-938) -/

/-- The `SharingInvitation` namedtuple (lines 204-207). -/
structure SharingInvitation where
  uid : String
  ownerUID : String
  ownerHomeID : Nat
  shareeUID : String
  shareeHomeID : Nat
  mode : BindMode
  status : BindStatus
  summary : Option String
deriving DecidableEq, Repr

/-- `sharingInvites()` (lines 909-938): empty for non-owner views; otherwise
every bind row of this resource with mode other than OWN, joined (inner) to
the sharee's home to recover its owner UID, irrespective of mode. -/
def sharingInvites (st : Store) (selfView : BindRecord) : List SharingInvitation :=
  if selfView.mode ≠ BindMode.own then []
  else
    st.binds.filterMap (fun b =>
      if b.resourceID == selfView.resourceID && !(b.mode == BindMode.own) then
        match findHomeByRID st b.homeResourceID, findHomeByRID st selfView.homeResourceID with
        | some sh, some oh =>
            some { uid := b.name, ownerUID := oh.uid, ownerHomeID := oh.resourceID,
                   shareeUID := sh.uid, shareeHomeID := sh.resourceID,
                   mode := b.mode, status := b.status, summary := b.message }
        | _, _ => none
      else none)

/-- Stable insertion of an invitation into a list ascending by sharee UID. -/
def insertInv (x : SharingInvitation) : List SharingInvitation → List SharingInvitation
  | [] => [x]
  | y :: ys => if x.shareeUID ≤ y.shareeUID then x :: y :: ys else y :: insertInv x ys

/-- Stable sort by sharee UID, modelling `invitations.sort(key=...)`. -/
def sortInvitations : List SharingInvitation → List SharingInvitation
  | [] => []
  | x :: xs => insertInv x (sortInvitations xs)

/-- `allInvitations()` (lines 488-498): the sharing invites with DIRECT-mode
entries removed, sorted by sharee UID. -/
def allInvitations (st : Store) (selfView : BindRecord) : List SharingInvitation :=
  sortInvitations ((sharingInvites st selfView).filter (fun x => !(x.mode == BindMode.direct)))

/-! ### Inbound federation entry points (lines 79-200) -/

/-- `processExternalReply(ownerUID, shareeUID, shareUID, bindStatus, summary=None)`
(lines 171-200), on the owner-side home: resolve the local external sharee
home and the bind by share UID (failing with `ExternalShareFailed`
otherwise); apply the accept path for ACCEPTED; for DECLINED delete direct
shares outright and decline the rest; any other status falls through with no
mutation.  A raise leaves the store as it was at the raise point (the
enclosing transaction rolls back). -/
def processExternalReply (st : Store) (shareeUID shareUID : String)
    (bindStatus : BindStatus) (summary : Option String) : Store × Option SharingError :=
  match findHomeByUID st shareeUID with
  | none => (st, some SharingError.externalShareFailed)
  | some shareeHome =>
    if ¬shareeHome.external then (st, some SharingError.externalShareFailed)
    else
      match anyObjectWithShareUID st shareeHome shareUID with
      | none => (st, some SharingError.externalShareFailed)
      | some sv =>
          if bindStatus = BindStatus.accepted then
            ((homeAcceptShare st shareeHome shareUID summary).fst, none)
          else if bindStatus = BindStatus.declined then
            if sv.mode = BindMode.direct then (deleteShare st sv, none)
            else ((homeDeclineShare st shareeHome shareUID).fst, none)
          else (st, none)

/-- Modelled from the spec: `childWithExternalID` (sql.py) resolves a home's
own child collection by the peer-assigned external id. -/
def childWithExternalID (st : Store) (home : Home) (externalID : Nat) : Option BindRecord :=
  st.binds.find? (fun b =>
    b.homeResourceID == home.resourceID && b.externalID == some externalID &&
      b.mode == BindMode.own)

/-- Modelled from the spec: `childWithName` (sql.py) resolves a home's own
child collection by name. -/
def childWithName (st : Store) (home : Home) (name : String) : Option BindRecord :=
  st.binds.find? (fun b =>
    b.homeResourceID == home.resourceID && b.name == name && b.mode == BindMode.own)

/-- Modelled from the spec: `createChildWithName(name, externalID)` (sql.py)
creates a fresh child collection in the home, failing with
`HomeChildNameAlreadyExistsError` when any bind in the home already uses the
name; the new child's OWN bind carries the supplied external id and the child
is indexed in the home. -/
def createChildWithName (st : Store) (home : Home) (name : String) (externalID : Nat) :
    Store × Option SharingError × Option BindRecord :=
  if st.binds.any (fun b => b.homeResourceID == home.resourceID && b.name == name) then
    (st, some SharingError.homeChildNameAlreadyExists, none)
  else
    let rid := st.nextRID
    let ob : BindRecord :=
      { homeResourceID := home.resourceID, resourceID := rid, externalID := some externalID,
        name := name, mode := BindMode.own, status := BindStatus.accepted,
        message := none, revision := none }
    let st := { st with nextRID := st.nextRID + 1 }
    let st := insertBindRow st ob
    let st := updateHome st home.resourceID (fun h => h.addChild name rid)
    (st, none, some ob)

/-- Modelled from the spec: `removeExternalChild` (sql.py) deletes an unused
external shadow child collection — every bind row of that resource — and
evicts it from the home's child index. -/
def removeExternalChild (st : Store) (home : Home) (child : BindRecord) : Store :=
  let st := { st with binds := st.binds.filter (fun b => !(b.resourceID == child.resourceID)) }
  updateHome st home.resourceID (fun h => h.popChild child.name child.resourceID)

/-- The sharing operation performed at the end of `processExternalInvite`
(lines 132-140): DIRECT share or invite against the processing sharee home,
under the assigned share UID as the bind name. -/
def externalInviteShareOp (st : Store) (ownerView : BindRecord) (selfHomeUID : String)
    (shareUID : String) (bindMode : BindMode) (summary : Option String) : Store :=
  if bindMode = BindMode.direct then
    (directShareWithUser st ownerView selfHomeUID (some shareUID)).fst
  else
    (inviteUIDToShare st ownerView selfHomeUID bindMode summary (some shareUID)).fst

/-- `processExternalInvite(ownerUID, ownerRID, ownerName, shareUID, bindMode,
summary, ...)` (lines 79-142), on the sharee's home: ensure the external
shadow owner home, resolve its shadow collection by external id, creating it
by name when absent; on a name collision with a stale differently-identified
shadow, re-raise when the stale collection still has sharing invites, else
delete it and retry the creation; finally perform the DIRECT or invited
share under the given share UID.  A raise leaves the store as it was at
the raise point (the enclosing transaction rolls back). -/
def processExternalInvite (st : Store) (selfHomeUID ownerUID : String) (ownerRID : Nat)
    (ownerName shareUID : String) (bindMode : BindMode) (summary : Option String) :
    Store × Option SharingError :=
  match homeWithUIDCreate st ownerUID with
  | (st, none) => (st, some SharingError.externalShareFailed)
  | (st, some ownerHomeH) =>
    if ¬ownerHomeH.external then (st, some SharingError.externalShareFailed)
    else
      match childWithExternalID st ownerHomeH ownerRID with
      | some ownerView =>
          (externalInviteShareOp st ownerView selfHomeUID shareUID bindMode summary, none)
      | none =>
        match createChildWithName st ownerHomeH ownerName ownerRID with
        | (st, none, some ownerView) =>
            (externalInviteShareOp st ownerView selfHomeUID shareUID bindMode summary, none)
        | (st, _, _) =>
            match childWithName st ownerHomeH ownerName with
            | none => (st, some SharingError.homeChildNameAlreadyExists)
            | some oldOwnerView =>
              if (sharingInvites st oldOwnerView).length ≠ 0 then
                (st, some SharingError.homeChildNameAlreadyExists)
              else
                let st := removeExternalChild st ownerHomeH oldOwnerView
                match createChildWithName st ownerHomeH ownerName ownerRID with
                | (st, none, some ownerView) =>
                    (externalInviteShareOp st ownerView selfHomeUID shareUID bindMode summary,
                      none)
                | (st, _, _) => (st, some SharingError.homeChildNameAlreadyExists)

/-! ### Scenario builders

Parametric minimal configurations used to state the claims: a store holding
the given binds, homes, inbox contents, effect trace and property store, and
a principal home / owner's own bind with the given identifiers. -/

def mkHome (u : String) (rid : Nat) (ext : Bool) (cns : List String) (cids : List Nat) : Home :=
  { uid := u, resourceID := rid, external := ext, childNames := cns, childIDs := cids }

def mkStore (bs : List BindRecord) (hs : List Home) (ns : List Notification) (tr : List Event)
    (pr : List (Nat × Nat × String)) : Store :=
  { binds := bs, homes := hs, notifications := ns, trace := tr, props := pr,
    directory := [], nextRID := 1000, nextName := 0, nextRev := 0 }

/-- The owner's OWN bind row for a resource living in home `ho`. -/
def ownRec (ho r : Nat) (eid : Option Nat) (nm : String) (msg : Option String) : BindRecord :=
  { homeResourceID := ho, resourceID := r, externalID := eid, name := nm,
    mode := BindMode.own, status := BindStatus.accepted, message := msg, revision := none }

/-- A sharee's bind row for resource `r` in sharee home `hs`. -/
def shareeRec (hs r : Nat) (eid : Option Nat) (nm : String) (m : BindMode) (s : BindStatus)
    (msg : Option String) : BindRecord :=
  { homeResourceID := hs, resourceID := r, externalID := eid, name := nm,
    mode := m, status := s, message := msg, revision := none }

/-- A minimal sharing configuration: an owner home (uid `uo`, id `ho`) holding
resource `r` named `nm`, a second principal home (uid `us`, id `hs`), the
owner's OWN bind, any further bind rows `bs`, and ambient inbox/trace/property
contents. -/
def twoHomeStore (uo us nm : String) (ho hs r : Nat) (eid : Option Nat) (extO extS : Bool)
    (bs : List BindRecord) (ns : List Notification) (tr : List Event)
    (pr : List (Nat × Nat × String)) : Store :=
  mkStore (ownRec ho r eid nm none :: bs)
    [mkHome uo ho extO [nm] [r], mkHome us hs extS [] []] ns tr pr

/-! ### Concrete fixtures used by counterexamples and witnesses -/

/-- A local owner home "o" (id 1) holding resource 10 named "cal", and a local
sharee home "s" (id 2) with a read-mode invited bind named "sh". -/
def c7sv : BindRecord := shareeRec 2 10 none ("sh") BindMode.read BindStatus.invited (some ("m"))

def c7st : Store :=
  mkStore [ownRec 1 10 none ("cal") none, c7sv]
    [mkHome ("o") 1 false [("cal")] [10], mkHome ("s") 2 false [] []] [] [] []

/-- An accepted read-mode sharee bind "sh" in local home "s" (id 2), whose
view carries the DisplayName property "My Cal". -/
def c4sv : BindRecord :=
  shareeRec 2 10 none ("sh") BindMode.read BindStatus.accepted (some ("m"))

def c4st : Store :=
  mkStore [ownRec 1 10 none ("cal") none, c4sv]
    [mkHome ("o") 1 false [("cal")] [10], mkHome ("s") 2 false [("sh")] [10]] [] []
    [(2, 10, ("My Cal"))]

/-- Owner home "o" (id 1) with an invited read bind for sharee "a" (home 2)
and a DIRECT accepted bind for sharee "b" (home 3) on resource 10. -/
def c6st : Store :=
  mkStore [ownRec 1 10 none ("cal") none,
      shareeRec 2 10 none ("sa") BindMode.read BindStatus.invited none,
      shareeRec 3 10 none ("sb") BindMode.direct BindStatus.accepted none]
    [mkHome ("o") 1 false [("cal")] [10], mkHome ("a") 2 false [] [],
      mkHome ("b") 3 false [] []] [] [] []

/-- An external sharee home "s" (id 2) with an invited bind "sx" on resource
10, owned by local home "o" (id 1). -/
def c10Home : Home := mkHome ("s") 2 true [] []

def c10sv : BindRecord := shareeRec 2 10 (some 7) ("sx") BindMode.read BindStatus.invited none

def c10st : Store :=
  mkStore [ownRec 1 10 (some 7) ("cal") none, c10sv]
    [mkHome ("o") 1 false [("cal")] [10], c10Home] [] [] []

/-! ## Toolkit lemmas -/

theorem applyColumnMap_resourceID (b : BindRecord) (cm : ColumnMap) :
    (applyColumnMap b cm).resourceID = b.resourceID := rfl

theorem applyColumnMap_homeResourceID (b : BindRecord) (cm : ColumnMap) :
    (applyColumnMap b cm).homeResourceID = b.homeResourceID := rfl

theorem changedStatus_snd_core (st : Store) (sv : BindRecord) (n : Nat) :
    (changedStatus st sv n).snd.mode = sv.mode ∧
    (changedStatus st sv n).snd.status = sv.status ∧
    (changedStatus st sv n).snd.message = sv.message ∧
    (changedStatus st sv n).snd.resourceID = sv.resourceID ∧
    (changedStatus st sv n).snd.homeResourceID = sv.homeResourceID := by
  unfold changedStatus
  split
  · simp [initBindRevision]
  · split <;> simp

/-- A home-list update through `updateHome` commutes with lookup by resource
id when the update preserves resource ids. -/
theorem findHomeByRID_updateHome (st : Store) (hid : Nat) (f : Home → Home)
    (hf : ∀ h, (f h).resourceID = h.resourceID) (target : Nat) :
    findHomeByRID (updateHome st hid f) target =
      (findHomeByRID st target).map (fun h => if h.resourceID == hid then f h else h) := by
  unfold findHomeByRID updateHome
  rw [List.find?_map]
  have hpg : ((fun h : Home => h.resourceID == target) ∘
      fun h => if (h.resourceID == hid) = true then f h else h)
      = fun h : Home => h.resourceID == target := by
    funext h
    by_cases hc : h.resourceID = hid
    · simp [hc, hf]
    · simp [hc]
  rw [hpg]

theorem find?_filter_not_self {α : Type} (p : α → Bool) (l : List α) :
    List.find? p (l.filter (fun b => !(p b))) = none := by
  rw [List.find?_eq_none]
  intro x hx
  rcases List.mem_filter.mp hx with ⟨_, hpx⟩
  simp at hpx
  simp [hpx]

/-- Deleting a bind row removes any bind for that (resource, home) pair. -/
theorem findBind_deleteBindRow (st : Store) (r h : Nat) :
    findBind (deleteBindRow st r h) r h = none := by
  unfold findBind deleteBindRow emit
  exact find?_filter_not_self _ _

theorem findBind_emit (x : Store) (e : Event) (r h : Nat) :
    findBind (emit x e) r h = findBind x r h := rfl

/-- A home-list map touching only the home with the given id commutes with
lookup by resource id when the update preserves resource ids. -/
theorem find?_rid_map (l : List Home) (hid target : Nat) (f : Home → Home)
    (hf : ∀ h, (f h).resourceID = h.resourceID) :
    (l.map (fun h => if h.resourceID == hid then f h else h)).find?
        (fun h => h.resourceID == target)
      = (l.find? (fun h => h.resourceID == target)).map
          (fun h => if h.resourceID == hid then f h else h) := by
  rw [List.find?_map]
  have hpg : ((fun h : Home => h.resourceID == target) ∘
      fun h => if (h.resourceID == hid) = true then f h else h)
      = fun h : Home => h.resourceID == target := by
    funext h
    by_cases hc : h.resourceID = hid
    · simp [hc, hf]
    · simp [hc]
  rw [hpg]

theorem Home.mem_addChild_name (h : Home) (n : String) (r : Nat) :
    n ∈ (h.addChild n r).childNames := by
  unfold Home.addChild
  by_cases hc : n ∈ h.childNames <;> simp [hc]

theorem Home.mem_addChild_id (h : Home) (n : String) (r : Nat) :
    r ∈ (h.addChild n r).childIDs := by
  unfold Home.addChild
  by_cases hc : r ∈ h.childIDs <;> simp [hc]

theorem Home.not_mem_popChild_name (h : Home) (n : String) (r : Nat) :
    n ∉ (h.popChild n r).childNames := by
  unfold Home.popChild
  simp [List.mem_filter]

theorem Home.not_mem_popChild_id (h : Home) (n : String) (r : Nat) :
    r ∉ (h.popChild n r).childIDs := by
  unfold Home.popChild
  simp [List.mem_filter]

theorem updateShare_homes_accepted (st : Store) (sv : BindRecord)
    (hne : sv.status ≠ BindStatus.accepted) :
    (updateShare st sv none (some BindStatus.accepted) none).fst.homes
      = st.homes.map (fun h => if h.resourceID == sv.homeResourceID then
          h.addChild sv.name sv.resourceID else h) := by
  have hne' : BindStatus.accepted ≠ sv.status := fun h => hne h.symm
  simp [updateShare, ColumnMap.isEmpty, hne', updateBindColumns, emit, invalidateQueryCache,
    notifyPropertyChanged, notifyChanged, applyColumnMap, changedStatus, initSyncToken,
    initBindRevision, updateHome]

theorem updateShare_homes_evict (st : Store) (sv : BindRecord) (s' : BindStatus)
    (hs : s' = BindStatus.invited ∨ s' = BindStatus.declined) (hne : s' ≠ sv.status) :
    (updateShare st sv none (some s') none).fst.homes
      = st.homes.map (fun h => if h.resourceID == sv.homeResourceID then
          h.popChild sv.name sv.resourceID else h) := by
  rcases hs with rfl | rfl <;>
  · simp [updateShare, ColumnMap.isEmpty, hne, updateBindColumns, emit, invalidateQueryCache,
      notifyPropertyChanged, notifyChanged, applyColumnMap, changedStatus, deletedSyncToken,
      updateHome]

theorem removeShare_homes (st : Store) (sv : BindRecord) :
    (removeShare st sv).homes
      = st.homes.map (fun h => if h.resourceID == sv.homeResourceID then
          h.popChild sv.name sv.resourceID else h) := by
  simp [removeShare, deletedSyncToken, updateHome, emit, notifyPropertyChanged, notifyChanged,
    deleteBindRow, invalidateQueryCache]

theorem updateShare_snd_fields (st : Store) (sv : BindRecord) (m : Option BindMode)
    (s : Option BindStatus) (u : Option String) :
    (updateShare st sv m s u).snd.mode = m.getD sv.mode ∧
    (updateShare st sv m s u).snd.status = s.getD sv.status ∧
    (updateShare st sv m s u).snd.resourceID = sv.resourceID ∧
    (updateShare st sv m s u).snd.homeResourceID = sv.homeResourceID := by
  unfold updateShare
  rcases m with _ | m' <;> rcases s with _ | s' <;> rcases u with _ | u' <;>
    simp only [ColumnMap.isEmpty] <;>
    split_ifs <;>
    simp_all [applyColumnMap, changedStatus_snd_core]

/-! ## Claim C10 -/

/-- Claim C10: `processExternalReply` called with a bind status that is
neither ACCEPTED nor DECLINED, after successfully resolving an external
sharee home and a bind for the share UID, performs no state mutation and
raises no error — the unrecognized status is silently ignored. -/
theorem C10_processExternalReply_ignores_unknown_status
    (st : Store) (shareeUID shareUID : String) (bindStatus : BindStatus)
    (summary : Option String) (sh : Home) (sv : BindRecord)
    (hh : findHomeByUID st shareeUID = some sh) (hx : sh.external = true)
    (hb : anyObjectWithShareUID st sh shareUID = some sv)
    (hna : bindStatus ≠ BindStatus.accepted) (hnd : bindStatus ≠ BindStatus.declined) :
    processExternalReply st shareeUID shareUID bindStatus summary = (st, none) := by
  simp [processExternalReply, hh, hx, hb, hna, hnd]

theorem C10_witness :
    processExternalReply c10st ("s") ("sx") BindStatus.invited none = (c10st, none) :=
  C10_processExternalReply_ignores_unknown_status c10st ("s") ("sx") BindStatus.invited none
    c10Home c10sv (by decide) (by decide) (by decide) (by decide) (by decide)

/-! ## Claim C4 -/

/-- Claim C4 (amended): for a local non-direct sharee bind,
`uninviteUIDFromShare` removes the pending invite notification — writing no
new notification — when the sharee's status is not ACCEPTED; when the status
is ACCEPTED it instead writes an invite-notification-shaped object (the
invite-notification type under the share UID — not an invite-reply) with
status DELETED whose summary is the sharee's current display name; in every
branch (external, direct, non-direct) the bind record is removed; and when
no bind exists for the UID the call does nothing. -/
theorem C4_uninvite_notifications (uo us nm en d : String) (ho hs r : Nat) (eid : Option Nat)
    (m0 : BindMode) (s0 : BindStatus) (em : Option String)
    (ns : List Notification) (tr : List Event) (pr : List (Nat × Nat × String))
    (huid : uo ≠ us) (hho : ho ≠ hs) :
    ((m0 ≠ BindMode.direct) → (s0 ≠ BindStatus.accepted) →
      (uninviteUIDFromShare
          (twoHomeStore uo us nm ho hs r eid false false [shareeRec hs r eid en m0 s0 em]
            ns tr pr)
          (ownRec ho r eid nm none) us).notifications
        = ns.filter (fun x => !(x.inboxUID == us && x.uid == en)) ∧
      (uninviteUIDFromShare
          (twoHomeStore uo us nm ho hs r eid false false [shareeRec hs r eid en m0 s0 em]
            ns tr pr)
          (ownRec ho r eid nm none) us).trace
        = tr ++ [Event.noteRemove us en, Event.deletedSyncToken hs r,
            Event.notifyPropertyChanged r, Event.notifyChanged hs, Event.bindDelete r hs,
            Event.invalidateCache hs r] ∧
      findBind (uninviteUIDFromShare
          (twoHomeStore uo us nm ho hs r eid false false [shareeRec hs r eid en m0 s0 em]
            ns tr pr)
          (ownRec ho r eid nm none) us) r hs = none) ∧
    ((m0 ≠ BindMode.direct) →
      (uninviteUIDFromShare
          (twoHomeStore uo us nm ho hs r eid false false
            [shareeRec hs r eid en m0 BindStatus.accepted em] ns tr ((hs, r, d) :: pr))
          (ownRec ho r eid nm none) us).notifications
        = ns.filter (fun x => !(x.inboxUID == us && x.uid == en)) ++
            [{ inboxUID := us, uid := en, ntype := "invite-notification",
               status := BindStatus.deleted, summary := some d }] ∧
      findBind (uninviteUIDFromShare
          (twoHomeStore uo us nm ho hs r eid false false
            [shareeRec hs r eid en m0 BindStatus.accepted em] ns tr ((hs, r, d) :: pr))
          (ownRec ho r eid nm none) us) r hs = none) ∧
    ((uninviteUIDFromShare
          (twoHomeStore uo us nm ho hs r eid false true [shareeRec hs r eid en m0 s0 em]
            ns tr pr)
          (ownRec ho r eid nm none) us).notifications = ns ∧
      (uninviteUIDFromShare
          (twoHomeStore uo us nm ho hs r eid false true [shareeRec hs r eid en m0 s0 em]
            ns tr pr)
          (ownRec ho r eid nm none) us).trace
        = tr ++ [Event.conduitUninvite uo r us en, Event.deletedSyncToken hs r,
            Event.notifyPropertyChanged r, Event.notifyChanged hs, Event.bindDelete r hs,
            Event.invalidateCache hs r] ∧
      findBind (uninviteUIDFromShare
          (twoHomeStore uo us nm ho hs r eid false true [shareeRec hs r eid en m0 s0 em]
            ns tr pr)
          (ownRec ho r eid nm none) us) r hs = none) ∧
    ((uninviteUIDFromShare
          (twoHomeStore uo us nm ho hs r eid false false
            [shareeRec hs r eid en BindMode.direct s0 em] ns tr pr)
          (ownRec ho r eid nm none) us).notifications = ns ∧
      findBind (uninviteUIDFromShare
          (twoHomeStore uo us nm ho hs r eid false false
            [shareeRec hs r eid en BindMode.direct s0 em] ns tr pr)
          (ownRec ho r eid nm none) us) r hs = none) ∧
    (uninviteUIDFromShare (twoHomeStore uo us nm ho hs r eid false false [] ns tr pr)
        (ownRec ho r eid nm none) us
      = twoHomeStore uo us nm ho hs r eid false false [] ns tr pr) := by
  refine ⟨?_, ?_, ?_, ?_, ?_⟩
  · intro hm0 hs0
    refine ⟨?_, ?_, ?_⟩ <;>
      simp [uninviteUIDFromShare, shareeViewOf, removeShare, removeInviteNotification,
        removeNotificationObjectWithUID, sendInviteNotification, writeNotificationObject,
        displayNameProp, strOfOpt, findHomeByUID, findHomeByRID, findBind, mkStore, mkHome,
        ownRec, shareeRec, twoHomeStore, huid, hho, hm0, hs0, emit, deleteBindRow,
        notifyPropertyChanged, notifyChanged, invalidateQueryCache, deletedSyncToken,
        updateHome, Home.popChild, viewerHomeExternal, sendExternalUninvite, ownerHomeOf,
        ownBind, Ne.symm hho, Ne.symm huid, find?_filter_not_self]
  · intro hm0
    refine ⟨?_, ?_⟩ <;>
      simp [uninviteUIDFromShare, shareeViewOf, removeShare, removeInviteNotification,
        removeNotificationObjectWithUID, sendInviteNotification, writeNotificationObject,
        displayNameProp, strOfOpt, findHomeByUID, findHomeByRID, findBind, mkStore, mkHome,
        ownRec, shareeRec, twoHomeStore, huid, hho, hm0, emit, deleteBindRow,
        notifyPropertyChanged, notifyChanged, invalidateQueryCache, deletedSyncToken,
        updateHome, Home.popChild, viewerHomeExternal, sendExternalUninvite, ownerHomeOf,
        ownBind, Ne.symm hho, Ne.symm huid, find?_filter_not_self]
  · refine ⟨?_, ?_, ?_⟩ <;>
      simp [uninviteUIDFromShare, shareeViewOf, removeShare, removeInviteNotification,
        removeNotificationObjectWithUID, sendInviteNotification, writeNotificationObject,
        displayNameProp, strOfOpt, findHomeByUID, findHomeByRID, findBind, mkStore, mkHome,
        ownRec, shareeRec, twoHomeStore, huid, hho, emit, deleteBindRow,
        notifyPropertyChanged, notifyChanged, invalidateQueryCache, deletedSyncToken,
        updateHome, Home.popChild, viewerHomeExternal, sendExternalUninvite, ownerHomeOf,
        ownBind, Ne.symm hho, Ne.symm huid, find?_filter_not_self]
  · refine ⟨?_, ?_⟩ <;>
      simp [uninviteUIDFromShare, shareeViewOf, removeShare, removeInviteNotification,
        removeNotificationObjectWithUID, sendInviteNotification, writeNotificationObject,
        displayNameProp, strOfOpt, findHomeByUID, findHomeByRID, findBind, mkStore, mkHome,
        ownRec, shareeRec, twoHomeStore, huid, hho, emit, deleteBindRow,
        notifyPropertyChanged, notifyChanged, invalidateQueryCache, deletedSyncToken,
        updateHome, Home.popChild, viewerHomeExternal, sendExternalUninvite, ownerHomeOf,
        ownBind, Ne.symm hho, Ne.symm huid, find?_filter_not_self]
  · simp [uninviteUIDFromShare, shareeViewOf, removeShare, removeInviteNotification,
        removeNotificationObjectWithUID, sendInviteNotification, writeNotificationObject,
        displayNameProp, strOfOpt, findHomeByUID, findHomeByRID, findBind, mkStore, mkHome,
        ownRec, shareeRec, twoHomeStore, huid, hho, emit, deleteBindRow,
        notifyPropertyChanged, notifyChanged, invalidateQueryCache, deletedSyncToken,
        updateHome, Home.popChild, viewerHomeExternal, sendExternalUninvite, ownerHomeOf,
        ownBind, Ne.symm hho, Ne.symm huid, find?_filter_not_self]

/-- Claim C4 counterexample: uninviting the concrete ACCEPTED sharee writes a
notification whose type tag is "invite-notification" — the shape written by
`_sendInviteNotification` — and no "invite-reply"-shaped notification
appears, contradicting the claim's "reply-shaped notification". -/
theorem C4_counterexample :
    (uninviteUIDFromShare c4st (ownRec 1 10 none ("cal") none) ("s")).notifications.map
      (fun n => n.ntype) = [("invite-notification")] ∧
    (uninviteUIDFromShare c4st (ownRec 1 10 none ("cal") none) ("s")).notifications.all
      (fun n => !(n.ntype == "invite-reply")) = true := by
  exact ⟨by decide, by decide⟩

theorem C4_witness :
    (uninviteUIDFromShare
        (twoHomeStore ("o") ("s") ("cal") 1 2 10 none false false
          [shareeRec 2 10 none ("e") BindMode.read BindStatus.accepted none] [] []
          [(2, 10, ("Disp"))])
        (ownRec 1 10 none ("cal") none) ("s")).notifications
      = [{ inboxUID := "s", uid := "e", ntype := "invite-notification",
           status := BindStatus.deleted, summary := some ("Disp") }] := by
  simpa using ((C4_uninvite_notifications ("o") ("s") ("cal") ("e") ("Disp") 1 2 10 none
    BindMode.read BindStatus.invited none [] [] [] (by decide) (by decide)).2.1
    (by decide)).1

/-! ## Claim C5 -/

/-- Claim C5: `acceptShare` and `declineShare` on a sharee view are complete
no-ops (no storage write, no notification, no federation send — the pair
(store, view) is returned unchanged) when the bind is direct or its status
already equals the target status; otherwise, when the bind is federated
(owner home external) the conduit reply is sent before the status column
write performed through the owner's `updateShare` (the reply is first in the
appended trace), no owner-inbox notification is written, and when the owner
is local the reply notification is written to the owner's inbox after the
transition and no conduit send occurs. -/
theorem C5_accept_decline_guards_and_ordering (uo us nm en : String) (ho hs r : Nat) (eid : Option Nat)
    (m0 : BindMode) (s0 : BindStatus) (em su : Option String)
    (ns : List Notification) (tr : List Event) (hho : ho ≠ hs) :
    ((m0 = BindMode.direct ∨ s0 = BindStatus.accepted) →
      acceptShare (twoHomeStore uo us nm ho hs r eid false false
          [shareeRec hs r eid en m0 s0 em] ns tr [])
        (shareeRec hs r eid en m0 s0 em) su
      = (twoHomeStore uo us nm ho hs r eid false false [shareeRec hs r eid en m0 s0 em]
          ns tr [], shareeRec hs r eid en m0 s0 em)) ∧
    ((m0 = BindMode.direct ∨ s0 = BindStatus.declined) →
      declineShare (twoHomeStore uo us nm ho hs r eid false false
          [shareeRec hs r eid en m0 s0 em] ns tr [])
        (shareeRec hs r eid en m0 s0 em)
      = (twoHomeStore uo us nm ho hs r eid false false [shareeRec hs r eid en m0 s0 em]
          ns tr [], shareeRec hs r eid en m0 s0 em)) ∧
    (m0 ≠ BindMode.direct → s0 ≠ BindStatus.accepted →
      (acceptShare (twoHomeStore uo us nm ho hs r eid true false
          [shareeRec hs r eid en m0 s0 em] ns tr [])
        (shareeRec hs r eid en m0 s0 em) su).fst.trace
        = tr ++ [Event.conduitReply uo us en BindStatus.accepted su,
            Event.bindUpdate r hs
              { mode := none, status := some BindStatus.accepted, message := none,
                revision := none },
            Event.initSyncToken hs r,
            Event.bindUpdate r hs
              { mode := none, status := none, message := none, revision := some 1 },
            Event.invalidateCache hs r, Event.invalidateCache hs r,
            Event.notifyPropertyChanged r, Event.notifyChanged hs,
            Event.newShareHook hs r] ∧
      (acceptShare (twoHomeStore uo us nm ho hs r eid true false
          [shareeRec hs r eid en m0 s0 em] ns tr [])
        (shareeRec hs r eid en m0 s0 em) su).fst.notifications = ns) ∧
    (m0 ≠ BindMode.direct → s0 ≠ BindStatus.accepted →
      (acceptShare (twoHomeStore uo us nm ho hs r eid false false
          [shareeRec hs r eid en m0 s0 em] ns tr [])
        (shareeRec hs r eid en m0 s0 em) su).fst.trace
        = tr ++ [Event.bindUpdate r hs
              { mode := none, status := some BindStatus.accepted, message := none,
                revision := none },
            Event.initSyncToken hs r,
            Event.bindUpdate r hs
              { mode := none, status := none, message := none, revision := some 1 },
            Event.invalidateCache hs r, Event.invalidateCache hs r,
            Event.notifyPropertyChanged r, Event.notifyChanged hs,
            Event.newShareHook hs r,
            Event.noteWrite
              { inboxUID := uo, uid := en ++ "-reply", ntype := "invite-reply",
                status := BindStatus.accepted, summary := su }] ∧
      (acceptShare (twoHomeStore uo us nm ho hs r eid false false
          [shareeRec hs r eid en m0 s0 em] ns tr [])
        (shareeRec hs r eid en m0 s0 em) su).fst.notifications
        = ns.filter (fun x => !(x.inboxUID == uo && x.uid == en ++ "-reply")) ++
            [{ inboxUID := uo, uid := en ++ "-reply", ntype := "invite-reply",
               status := BindStatus.accepted, summary := su }]) ∧
    (m0 ≠ BindMode.direct → s0 ≠ BindStatus.declined →
      (declineShare (twoHomeStore uo us nm ho hs r eid true false
          [shareeRec hs r eid en m0 s0 em] ns tr [])
        (shareeRec hs r eid en m0 s0 em)).fst.trace
        = tr ++ [Event.conduitReply uo us en BindStatus.declined none,
            Event.bindUpdate r hs
              { mode := none, status := some BindStatus.declined, message := none,
                revision := none },
            Event.deletedSyncToken hs r,
            Event.invalidateCache hs r, Event.notifyPropertyChanged r,
            Event.notifyChanged hs] ∧
      (declineShare (twoHomeStore uo us nm ho hs r eid true false
          [shareeRec hs r eid en m0 s0 em] ns tr [])
        (shareeRec hs r eid en m0 s0 em)).fst.notifications = ns) ∧
    (m0 ≠ BindMode.direct → s0 ≠ BindStatus.declined →
      (declineShare (twoHomeStore uo us nm ho hs r eid false false
          [shareeRec hs r eid en m0 s0 em] ns tr [])
        (shareeRec hs r eid en m0 s0 em)).fst.trace
        = tr ++ [Event.bindUpdate r hs
              { mode := none, status := some BindStatus.declined, message := none,
                revision := none },
            Event.deletedSyncToken hs r,
            Event.invalidateCache hs r, Event.notifyPropertyChanged r,
            Event.notifyChanged hs,
            Event.noteWrite
              { inboxUID := uo, uid := en ++ "-reply", ntype := "invite-reply",
                status := BindStatus.declined, summary := none }] ∧
      (declineShare (twoHomeStore uo us nm ho hs r eid false false
          [shareeRec hs r eid en m0 s0 em] ns tr [])
        (shareeRec hs r eid en m0 s0 em)).fst.notifications
        = ns.filter (fun x => !(x.inboxUID == uo && x.uid == en ++ "-reply")) ++
            [{ inboxUID := uo, uid := en ++ "-reply", ntype := "invite-reply",
               status := BindStatus.declined, summary := none }]) := by
  refine ⟨?_, ?_, ?_, ?_, ?_, ?_⟩
  · rintro (rfl | rfl) <;> simp [acceptShare, shareeRec]
  · rintro (rfl | rfl) <;> simp [declineShare, shareeRec]
  all_goals (
    intro hm0 hs0
    constructor <;>
      simp [acceptShare, declineShare, viewExternal, replyExternalInvite,
        sendReplyNotification, writeNotificationObject, updateShare, ColumnMap.isEmpty,
        findHomeByUID, findHomeByRID, findBind, mkStore, mkHome, ownRec, shareeRec,
        twoHomeStore, hho, hm0, hs0, Ne.symm hs0, emit, updateBindColumns,
        notifyPropertyChanged, notifyChanged, invalidateQueryCache, applyColumnMap,
        initSyncToken, initBindRevision, changedStatus, deletedSyncToken, updateHome,
        Home.addChild, Home.popChild, ownerHomeOf, ownBind, Ne.symm hho])

theorem C5_witness :
    acceptShare
        (twoHomeStore ("o") ("s") ("cal") 1 2 10 none false false
          [shareeRec 2 10 none ("e") BindMode.direct BindStatus.accepted none] [] [] [])
        (shareeRec 2 10 none ("e") BindMode.direct BindStatus.accepted none) none
      = (twoHomeStore ("o") ("s") ("cal") 1 2 10 none false false
          [shareeRec 2 10 none ("e") BindMode.direct BindStatus.accepted none] [] [] [],
         shareeRec 2 10 none ("e") BindMode.direct BindStatus.accepted none) :=
  (C5_accept_decline_guards_and_ordering ("o") ("s") ("cal") ("e") 1 2 10 none
    BindMode.direct BindStatus.accepted none none [] [] (by decide)).1 (Or.inl rfl)

/-! ## Claim C6 -/

/-- Claim C6 (amended): `sharingInvites()` on the owner view returns every
non-OWN bind of the resource irrespective of mode — for one INVITED bind and
one DIRECT bind it returns both, in bind-table order; only the
`allInvitations()` convenience view excludes the DIRECT entry and sorts the
remainder by sharee UID; and for every non-owner view both return the empty
list. -/
theorem C6_sharingInvites_includes_direct (uo ua ub nm na nb : String) (ho ha hb r : Nat) (eid : Option Nat)
    (mA : BindMode) (ema emb : Option String) (ns : List Notification) (tr : List Event)
    (hoa : ho ≠ ha) (hob : ho ≠ hb) (hab : ha ≠ hb)
    (hmA : mA ≠ BindMode.direct) (hmAo : mA ≠ BindMode.own) :
    sharingInvites
        (mkStore [ownRec ho r eid nm none, shareeRec ha r eid na mA BindStatus.invited ema,
            shareeRec hb r eid nb BindMode.direct BindStatus.accepted emb]
          [mkHome uo ho false [nm] [r], mkHome ua ha false [] [], mkHome ub hb false [] []]
          ns tr [])
        (ownRec ho r eid nm none)
      = [{ uid := na, ownerUID := uo, ownerHomeID := ho, shareeUID := ua,
           shareeHomeID := ha, mode := mA, status := BindStatus.invited, summary := ema },
         { uid := nb, ownerUID := uo, ownerHomeID := ho, shareeUID := ub,
           shareeHomeID := hb, mode := BindMode.direct, status := BindStatus.accepted,
           summary := emb }] ∧
    allInvitations
        (mkStore [ownRec ho r eid nm none, shareeRec ha r eid na mA BindStatus.invited ema,
            shareeRec hb r eid nb BindMode.direct BindStatus.accepted emb]
          [mkHome uo ho false [nm] [r], mkHome ua ha false [] [], mkHome ub hb false [] []]
          ns tr [])
        (ownRec ho r eid nm none)
      = [{ uid := na, ownerUID := uo, ownerHomeID := ho, shareeUID := ua,
           shareeHomeID := ha, mode := mA, status := BindStatus.invited, summary := ema }] ∧
    (¬(ua ≤ ub) →
      allInvitations
          (mkStore [ownRec ho r eid nm none, shareeRec ha r eid na mA BindStatus.invited ema,
              shareeRec hb r eid nb mA BindStatus.invited emb]
            [mkHome uo ho false [nm] [r], mkHome ua ha false [] [], mkHome ub hb false [] []]
            ns tr [])
          (ownRec ho r eid nm none)
        = [{ uid := nb, ownerUID := uo, ownerHomeID := ho, shareeUID := ub,
             shareeHomeID := hb, mode := mA, status := BindStatus.invited, summary := emb },
           { uid := na, ownerUID := uo, ownerHomeID := ho, shareeUID := ua,
             shareeHomeID := ha, mode := mA, status := BindStatus.invited, summary := ema }]) ∧
    (∀ (st : Store) (v : BindRecord), v.mode ≠ BindMode.own →
      sharingInvites st v = [] ∧ allInvitations st v = []) := by
  refine ⟨?_, ?_, ?_, ?_⟩
  · simp [sharingInvites, findHomeByRID, mkStore, mkHome, ownRec, shareeRec,
      hoa, hob, hab, hmAo, Ne.symm hoa, Ne.symm hob, Ne.symm hab]
  · simp [allInvitations, sharingInvites, sortInvitations, insertInv, findHomeByRID,
      mkStore, mkHome, ownRec, shareeRec, hoa, hob, hab, hmA, hmAo,
      Ne.symm hoa, Ne.symm hob, Ne.symm hab]
  · intro hle
    simp [allInvitations, sharingInvites, sortInvitations, insertInv, findHomeByRID,
      mkStore, mkHome, ownRec, shareeRec, hoa, hob, hab, hmA, hmAo, hle,
      Ne.symm hoa, Ne.symm hob, Ne.symm hab]
  · intro st v hv
    constructor <;> simp [sharingInvites, allInvitations, sortInvitations, hv]

/-- Claim C6 counterexample: with one INVITED and one DIRECT bind on the
owner resource, `sharingInvites()` returns two entries — the DIRECT one
included — contradicting the claim that it returns only the INVITED one. -/
theorem C6_counterexample :
    (sharingInvites c6st (ownRec 1 10 none ("cal") none)).length = 2 ∧
    (sharingInvites c6st (ownRec 1 10 none ("cal") none)).map (fun x => x.mode)
      = [BindMode.read, BindMode.direct] := by
  exact ⟨by decide, by decide⟩

theorem C6_witness :
    allInvitations c6st (ownRec 1 10 none ("cal") none)
      = [{ uid := "sa", ownerUID := "o", ownerHomeID := 1, shareeUID := "a",
           shareeHomeID := 2, mode := BindMode.read, status := BindStatus.invited,
           summary := none }] :=
  (C6_sharingInvites_includes_direct ("o") ("a") ("b") ("cal") ("sa") ("sb") 1 2 3 10 none
    BindMode.read none none [] [] (by decide) (by decide) (by decide) (by decide)
    (by decide)).2.1

/-! ## Claim C7 -/

/-- Claim C7 (amended): `updateShare` writes only the bind columns whose
requested values differ from the sharee view's current values; a call where
mode, status and summary all equal the current values or are `None` performs
no storage write and — contrary to the original claim — no cache
invalidation and no change notification either.  When at least one column
differs, it writes exactly the diff, invalidates the cached query results
keyed on this bind record and raises change notifications on both the owner
resource and the sharee home; the transition side effects (sync-token
init/teardown and their bind-revision write) run only when the status is
part of the diff. -/
theorem C7_updateShare_minimal_diff (st : Store) (sv : BindRecord) :
    (∀ (m : Option BindMode) (s : Option BindStatus) (u : Option String),
      (m = none ∨ m = some sv.mode) → (s = none ∨ s = some sv.status) →
      (u = none ∨ u = sv.message) → updateShare st sv m s u = (st, sv)) ∧
    (∀ (m' : BindMode), m' ≠ sv.mode →
      (updateShare st sv (some m') none none).fst.trace
        = st.trace ++ [Event.bindUpdate sv.resourceID sv.homeResourceID
            { mode := some m', status := none, message := none, revision := none },
          Event.invalidateCache sv.homeResourceID sv.resourceID,
          Event.notifyPropertyChanged sv.resourceID,
          Event.notifyChanged sv.homeResourceID] ∧
      (updateShare st sv (some m') none none).fst.homes = st.homes ∧
      (updateShare st sv (some m') none none).fst.notifications = st.notifications ∧
      (updateShare st sv (some m') none none).fst.binds
        = st.binds.map (fun b =>
            if b.resourceID == sv.resourceID && b.homeResourceID == sv.homeResourceID then
              applyColumnMap b
                { mode := some m', status := none, message := none, revision := none }
            else b)) ∧
    (sv.status ≠ BindStatus.accepted →
      (updateShare st sv none (some BindStatus.accepted) none).fst.trace
        = st.trace ++ [Event.bindUpdate sv.resourceID sv.homeResourceID
            { mode := none, status := some BindStatus.accepted, message := none,
              revision := none },
          Event.initSyncToken sv.homeResourceID sv.resourceID,
          Event.bindUpdate sv.resourceID sv.homeResourceID
            { mode := none, status := none, message := none,
              revision := some (st.nextRev + 1) },
          Event.invalidateCache sv.homeResourceID sv.resourceID,
          Event.invalidateCache sv.homeResourceID sv.resourceID,
          Event.notifyPropertyChanged sv.resourceID,
          Event.notifyChanged sv.homeResourceID]) ∧
    (∀ s' : BindStatus, s' = BindStatus.invited ∨ s' = BindStatus.declined → s' ≠ sv.status →
      (updateShare st sv none (some s') none).fst.trace
        = st.trace ++ [Event.bindUpdate sv.resourceID sv.homeResourceID
            { mode := none, status := some s', message := none, revision := none },
          Event.deletedSyncToken sv.homeResourceID sv.resourceID,
          Event.invalidateCache sv.homeResourceID sv.resourceID,
          Event.notifyPropertyChanged sv.resourceID,
          Event.notifyChanged sv.homeResourceID]) := by
  refine ⟨?_, ?_, ?_, ?_⟩
  · rintro m s u (rfl | rfl) (rfl | rfl) (rfl | rfl) <;>
      rcases hm : sv.message with _ | msg <;>
      simp [updateShare, ColumnMap.isEmpty, hm]
  · intro m' hm
    simp [updateShare, ColumnMap.isEmpty, hm, updateBindColumns, emit, invalidateQueryCache,
      notifyPropertyChanged, notifyChanged, applyColumnMap]
  · intro hs
    have hne : BindStatus.accepted ≠ sv.status := fun h => hs h.symm
    simp [updateShare, ColumnMap.isEmpty, hne, updateBindColumns, emit, invalidateQueryCache,
      notifyPropertyChanged, notifyChanged, applyColumnMap, changedStatus, initSyncToken,
      initBindRevision, deletedSyncToken, updateHome]
  · rintro s' (rfl | rfl) hs <;>
    · have hne : _ ≠ sv.status := hs
      simp [updateShare, ColumnMap.isEmpty, hne, updateBindColumns, emit, invalidateQueryCache,
        notifyPropertyChanged, notifyChanged, applyColumnMap, changedStatus, initSyncToken,
        initBindRevision, deletedSyncToken, updateHome]

/-- Claim C7 counterexample: at this concrete input every requested value
equals the current one; contrary to the claim's "always invalidates the
cached query results … and raises change notifications on both the owner
and sharee homes", `updateShare` does nothing: the store is returned
unchanged and its (initially empty) trace stays empty — no invalidation
event and no change notification is raised. -/
theorem C7_counterexample :
    updateShare c7st c7sv (some BindMode.read) (some BindStatus.invited) (some ("m"))
        = (c7st, c7sv) ∧
    (updateShare c7st c7sv (some BindMode.read) (some BindStatus.invited)
        (some ("m"))).fst.trace = [] := by
  exact ⟨by decide, by decide⟩

theorem C7_witness :
    (updateShare c7st c7sv (some BindMode.write) none none).fst.homes = c7st.homes ∧
    (updateShare c7st c7sv (some BindMode.write) none none).fst.notifications
      = c7st.notifications := by
  have h := (C7_updateShare_minimal_diff c7st c7sv).2.1 BindMode.write (by decide)
  exact ⟨h.2.1, h.2.2.1⟩

/-! ## Claim C8 -/

/-- Claim C8: when `processExternalInvite` fails to create the shadow owner
collection because a collection with that name already exists under a
different external id: if the stale collection still has a live sharing
invitation the `HomeChildNameAlreadyExistsError` propagates and the store is
exactly as before the call (the stale shadow untouched); if it has zero live
invitations the stale shadow is deleted — no bind of the stale resource
survives — creation is retried under the new external id and the invite then
succeeds: the final store holds exactly the fresh OWN shadow bind (external
id B, marked shared) and the new INVITED sharee bind under the share UID,
the home indexes the fresh child, and the invite notification is written
into the processing sharee's inbox. -/
theorem C8_externalInvite_collision_repair (um uw cn shU ln : String) (hm hw A B : Nat) (mL modeI : BindMode)
    (emL sum : Option String) (s0 : BindStatus) (rs : Nat)
    (ns : List Notification) (tr : List Event)
    (hAB : A ≠ B) (huids : um ≠ uw) (hhm : hm ≠ hw)
    (hmL : mL ≠ BindMode.own) (hmod : modeI ≠ BindMode.direct) :
    (processExternalInvite
        (mkStore [ownRec hw rs (some A) cn none, shareeRec hm rs (some A) ln mL s0 emL]
          [mkHome um hm false [] [], mkHome uw hw true [cn] [rs]] ns tr [])
        um uw B cn shU modeI sum
      = (mkStore [ownRec hw rs (some A) cn none, shareeRec hm rs (some A) ln mL s0 emL]
          [mkHome um hm false [] [], mkHome uw hw true [cn] [rs]] ns tr [],
         some SharingError.homeChildNameAlreadyExists)) ∧
    ((processExternalInvite
        (mkStore [ownRec hw rs (some A) cn none]
          [mkHome um hm false [] [], mkHome uw hw true [cn] [rs]] ns tr [])
        um uw B cn shU modeI sum).snd = none ∧
     (processExternalInvite
        (mkStore [ownRec hw rs (some A) cn none]
          [mkHome um hm false [] [], mkHome uw hw true [cn] [rs]] ns tr [])
        um uw B cn shU modeI sum).fst.binds
       = [{ homeResourceID := hm, resourceID := 1000, externalID := some B, name := shU,
            mode := modeI, status := BindStatus.invited, message := sum, revision := none },
          { homeResourceID := hw, resourceID := 1000, externalID := some B, name := cn,
            mode := BindMode.own, status := BindStatus.accepted, message := some ("shared"),
            revision := none }] ∧
     (processExternalInvite
        (mkStore [ownRec hw rs (some A) cn none]
          [mkHome um hm false [] [], mkHome uw hw true [cn] [rs]] ns tr [])
        um uw B cn shU modeI sum).fst.homes
       = [mkHome um hm false [] [],
          { uid := uw, resourceID := hw, external := true, childNames := [cn],
            childIDs := [1000] }] ∧
     (processExternalInvite
        (mkStore [ownRec hw rs (some A) cn none]
          [mkHome um hm false [] [], mkHome uw hw true [cn] [rs]] ns tr [])
        um uw B cn shU modeI sum).fst.notifications
       = ns.filter (fun x => !(x.inboxUID == um && x.uid == shU)) ++
           [{ inboxUID := um, uid := shU, ntype := "invite-notification",
              status := BindStatus.invited, summary := sum }]) := by
  constructor
  · simp [processExternalInvite, homeWithUIDCreate, childWithExternalID, childWithName,
      createChildWithName, removeExternalChild, sharingInvites, externalInviteShareOp,
      findHomeByUID, findHomeByRID, findBind, mkStore, mkHome, ownRec, shareeRec,
      hAB, huids, hhm, hmL, Ne.symm hAB, Ne.symm huids, Ne.symm hhm,
      insertBindRow, emit, updateHome, Home.addChild, Home.popChild]
  · refine ⟨?_, ?_, ?_, ?_⟩ <;>
      simp [processExternalInvite, homeWithUIDCreate, childWithExternalID, childWithName,
        createChildWithName, removeExternalChild, sharingInvites, externalInviteShareOp,
        inviteUIDToShare, shareeViewOf, createShare, shareWith, viewerHomeExternal,
        sendExternalInvite, sendInviteNotification, writeNotificationObject, ownerHomeOf,
        ownBind, updateShare, ColumnMap.isEmpty, setShared, updateBindColumns,
        notifyPropertyChanged, notifyChanged, invalidateQueryCache, applyColumnMap,
        initSyncToken, initBindRevision, changedStatus, deletedSyncToken,
        findHomeByUID, findHomeByRID, findBind, mkStore, mkHome, ownRec, shareeRec,
        hAB, huids, hhm, hmod, Ne.symm hAB, Ne.symm huids, Ne.symm hhm,
        insertBindRow, emit, updateHome, Home.addChild, Home.popChild, newShareName]

theorem C8_witness :
    processExternalInvite
        (mkStore [ownRec 2 20 (some 50) ("cal") none,
            shareeRec 1 20 (some 50) ("old") BindMode.read BindStatus.invited none]
          [mkHome ("me") 1 false [] [], mkHome ("ow") 2 true [("cal")] [20]] [] [] [])
        ("me") ("ow") 60 ("cal") ("shX") BindMode.read (some ("pls"))
      = (mkStore [ownRec 2 20 (some 50) ("cal") none,
            shareeRec 1 20 (some 50) ("old") BindMode.read BindStatus.invited none]
          [mkHome ("me") 1 false [] [], mkHome ("ow") 2 true [("cal")] [20]] [] [] [],
         some SharingError.homeChildNameAlreadyExists) :=
  (C8_externalInvite_collision_repair ("me") ("ow") ("cal") ("shX") ("old") 1 2 50 60
    BindMode.read BindMode.read none (some ("pls")) BindStatus.invited 20 [] []
    (by decide) (by decide) (by decide) (by decide) (by decide)).1

/-! ## Claim C9 -/

/-- Claim C9: the home's in-memory active child index tracks the bind
status — every status transition into ACCEPTED (through `updateShare` and its
`_changedStatus` hook) inserts the shared resource into the sharee home's
index under both its name and its resource id; every transition into INVITED
or DECLINED evicts both keys; and `removeShare` evicts both keys and deletes
the bind record. -/
theorem C9_child_index_follows_status (st : Store) (sv : BindRecord) (hm : Home)
    (hfound : findHomeByRID st sv.homeResourceID = some hm) :
    (sv.status ≠ BindStatus.accepted →
      ∃ hm', findHomeByRID (updateShare st sv none (some BindStatus.accepted) none).fst
          sv.homeResourceID = some hm' ∧
        sv.name ∈ hm'.childNames ∧ sv.resourceID ∈ hm'.childIDs) ∧
    (∀ s' : BindStatus, s' = BindStatus.invited ∨ s' = BindStatus.declined → s' ≠ sv.status →
      ∃ hm', findHomeByRID (updateShare st sv none (some s') none).fst
          sv.homeResourceID = some hm' ∧
        sv.name ∉ hm'.childNames ∧ sv.resourceID ∉ hm'.childIDs) ∧
    (∃ hm', findHomeByRID (removeShare st sv) sv.homeResourceID = some hm' ∧
        sv.name ∉ hm'.childNames ∧ sv.resourceID ∉ hm'.childIDs ∧
        findBind (removeShare st sv) sv.resourceID sv.homeResourceID = none) := by
  have hpred : hm.resourceID = sv.homeResourceID := by
    simpa using List.find?_some hfound
  refine ⟨?_, ?_, ?_⟩
  · intro hne
    have hh := updateShare_homes_accepted st sv hne
    refine ⟨hm.addChild sv.name sv.resourceID, ?_, Home.mem_addChild_name hm _ _,
      Home.mem_addChild_id hm _ _⟩
    unfold findHomeByRID at hfound ⊢
    rw [hh, find?_rid_map _ _ _ _ (by intro h; simp [Home.addChild]), hfound]
    simp [hpred]
  · intro s' hs hne
    have hh := updateShare_homes_evict st sv s' hs hne
    refine ⟨hm.popChild sv.name sv.resourceID, ?_, Home.not_mem_popChild_name hm _ _,
      Home.not_mem_popChild_id hm _ _⟩
    unfold findHomeByRID at hfound ⊢
    rw [hh, find?_rid_map _ _ _ _ (by intro h; simp [Home.popChild]), hfound]
    simp [hpred]
  · have hh := removeShare_homes st sv
    refine ⟨hm.popChild sv.name sv.resourceID, ?_, Home.not_mem_popChild_name hm _ _,
      Home.not_mem_popChild_id hm _ _, ?_⟩
    · unfold findHomeByRID at hfound ⊢
      rw [hh, find?_rid_map _ _ _ _ (by intro h; simp [Home.popChild]), hfound]
      simp [hpred]
    · show findBind (invalidateQueryCache _ _) _ _ = none
      unfold invalidateQueryCache
      rw [findBind_emit]
      exact findBind_deleteBindRow _ _ _

/-! ## Claim C1 -/

/-- Claim C1: when the bind-insert sub-transaction in `shareWith` exhausts its
retries because a bind row for this (resource, sharee home) pair already
exists (the create race), `shareWith` does not raise: it re-reads the
existing row, applies `updateShare` with the requested mode and the status
defaulted to ACCEPTED, and returns the existing row's name rather than the
requested one; consequently two `shareWith` calls for the same (resource,
sharee) converge to exactly one bind record whose final mode is the last
update applied. -/
theorem C1_shareWith_race_fallback (uo us nm en n1 n2 : String) (ho hs r : Nat)
    (eid : Option Nat) (mode1 mode2 m0 : BindMode) (s0 : BindStatus) (em : Option String)
    (ns : List Notification) (tr : List Event) (hho : ho ≠ hs) :
    ((shareWith
        (twoHomeStore uo us nm ho hs r eid false false [shareeRec hs r eid en m0 s0 em]
          ns tr [])
        (ownRec ho r eid nm none) (mkHome us hs false [] []) mode2 none none
        (some n2)).snd.snd = en ∧
      (findBind (shareWith
          (twoHomeStore uo us nm ho hs r eid false false [shareeRec hs r eid en m0 s0 em]
            ns tr [])
          (ownRec ho r eid nm none) (mkHome us hs false [] []) mode2 none none
          (some n2)).fst r hs).map (fun b => (b.name, b.mode, b.status))
        = some (en, mode2, BindStatus.accepted)) ∧
    (shareWith (twoHomeStore uo us nm ho hs r eid false false [] ns tr [])
        (ownRec ho r eid nm none) (mkHome us hs false [] []) mode1 none none
        (some n1)).snd.snd = n1 ∧
    (shareWith
        (shareWith (twoHomeStore uo us nm ho hs r eid false false [] ns tr [])
          (ownRec ho r eid nm none) (mkHome us hs false [] []) mode1 none none
          (some n1)).fst
        (ownRec ho r eid nm none) (mkHome us hs false [] []) mode2 none none
        (some n2)).snd.snd = n1 ∧
    (∃ bb : BindRecord,
      (shareWith
          (shareWith (twoHomeStore uo us nm ho hs r eid false false [] ns tr [])
            (ownRec ho r eid nm none) (mkHome us hs false [] []) mode1 none none
            (some n1)).fst
          (ownRec ho r eid nm none) (mkHome us hs false [] []) mode2 none none
          (some n2)).fst.binds.filter
          (fun b => b.resourceID == r && b.homeResourceID == hs) = [bb] ∧
        bb.name = n1 ∧ bb.mode = mode2 ∧ bb.status = BindStatus.accepted) := by
  refine ⟨⟨?_, ?_⟩, ?_, ?_, ?_⟩
  · cases s0 <;> by_cases hmm : mode2 = m0 <;>
      simp [shareWith, homeWithUIDCreate, findHomeByUID, findHomeByRID, findBind,
        mkStore, mkHome, ownRec, shareeRec, twoHomeStore, hho, hmm, updateShare,
        ColumnMap.isEmpty, insertBindRow, emit, setShared, updateBindColumns,
        notifyPropertyChanged, notifyChanged, invalidateQueryCache, applyColumnMap,
        initSyncToken, initBindRevision, changedStatus, deletedSyncToken, updateHome,
        Home.addChild, Home.popChild, newShareName, Ne.symm hho]
  · cases s0 <;> by_cases hmm : mode2 = m0 <;>
      simp [shareWith, homeWithUIDCreate, findHomeByUID, findHomeByRID, findBind,
        mkStore, mkHome, ownRec, shareeRec, twoHomeStore, hho, hmm, updateShare,
        ColumnMap.isEmpty, insertBindRow, emit, setShared, updateBindColumns,
        notifyPropertyChanged, notifyChanged, invalidateQueryCache, applyColumnMap,
        initSyncToken, initBindRevision, changedStatus, deletedSyncToken, updateHome,
        Home.addChild, Home.popChild, newShareName, Ne.symm hho]
  · simp [shareWith, homeWithUIDCreate, findHomeByUID, findHomeByRID, findBind,
      mkStore, mkHome, ownRec, shareeRec, twoHomeStore, hho, updateShare,
      ColumnMap.isEmpty, insertBindRow, emit, setShared, updateBindColumns,
      notifyPropertyChanged, notifyChanged, invalidateQueryCache, applyColumnMap,
      initSyncToken, initBindRevision, changedStatus, deletedSyncToken, updateHome,
      Home.addChild, Home.popChild, newShareName, Ne.symm hho]
  · by_cases hmm : mode2 = mode1 <;>
      simp [shareWith, homeWithUIDCreate, findHomeByUID, findHomeByRID, findBind,
        mkStore, mkHome, ownRec, shareeRec, twoHomeStore, hho, hmm, updateShare,
        ColumnMap.isEmpty, insertBindRow, emit, setShared, updateBindColumns,
        notifyPropertyChanged, notifyChanged, invalidateQueryCache, applyColumnMap,
        initSyncToken, initBindRevision, changedStatus, deletedSyncToken, updateHome,
        Home.addChild, Home.popChild, newShareName, Ne.symm hho]
  · by_cases hmm : mode2 = mode1 <;>
      simp [shareWith, homeWithUIDCreate, findHomeByUID, findHomeByRID, findBind,
        mkStore, mkHome, ownRec, shareeRec, twoHomeStore, hho, hmm, updateShare,
        ColumnMap.isEmpty, insertBindRow, emit, setShared, updateBindColumns,
        notifyPropertyChanged, notifyChanged, invalidateQueryCache, applyColumnMap,
        initSyncToken, initBindRevision, changedStatus, deletedSyncToken, updateHome,
        Home.addChild, Home.popChild, newShareName, Ne.symm hho]

theorem C1_witness :
    (shareWith (twoHomeStore ("o") ("s") ("cal") 1 2 10 none false false [] [] [] [])
        (ownRec 1 10 none ("cal") none) (mkHome ("s") 2 false [] []) BindMode.read none none
        (some ("n1"))).snd.snd = "n1" :=
  (C1_shareWith_race_fallback ("o") ("s") ("cal") ("e") ("n1") ("n2") 1 2 10 none
    BindMode.read BindMode.write BindMode.read BindStatus.invited none [] []
    (by decide)).2.1

/-! ## Claim C2 -/

/-- Claim C2: `inviteUIDToShare` on an existing bind forces the status back to
INVITED only when the prior status was DECLINED or INVALID, otherwise it
updates mode/summary in place leaving the status untouched; with no existing
bind it creates one with status INVITED; and the sequence invite, accept,
decline, invite starting from no bind passes through INVITED, ACCEPTED,
DECLINED and ends with status INVITED, not DECLINED. -/
theorem C2_inviteUIDToShare_reinvite (uo us nm sn en : String) (ho hs r : Nat)
    (eid : Option Nat) (mode m0 mode2 : BindMode) (s0 : BindStatus)
    (em su1 su2 : Option String) (ns : List Notification) (tr : List Event)
    (huid : uo ≠ us) (hho : ho ≠ hs) (hdir : mode ≠ BindMode.direct)
    (hown : mode ≠ BindMode.own) :
    (inviteUIDToShare
        (twoHomeStore uo us nm ho hs r eid false false [shareeRec hs r eid en m0 s0 em]
          ns tr [])
        (ownRec ho r eid nm none) us mode2 none none).snd.map (fun b => (b.status, b.mode))
      = some (if s0 = BindStatus.declined ∨ s0 = BindStatus.invalid then BindStatus.invited
              else s0, mode2) ∧
    (findBind ((inviteUIDToShare (twoHomeStore uo us nm ho hs r eid false false [] ns tr [])
        (ownRec ho r eid nm none) us mode su1 (some sn)).fst) r hs).map
        (fun b => b.status) = some BindStatus.invited ∧
    (findBind ((homeAcceptShare
        (inviteUIDToShare (twoHomeStore uo us nm ho hs r eid false false [] ns tr [])
          (ownRec ho r eid nm none) us mode su1 (some sn)).fst
        (mkHome us hs false [] []) sn su2).fst) r hs).map
        (fun b => b.status) = some BindStatus.accepted ∧
    (findBind ((homeDeclineShare ((homeAcceptShare
        (inviteUIDToShare (twoHomeStore uo us nm ho hs r eid false false [] ns tr [])
          (ownRec ho r eid nm none) us mode su1 (some sn)).fst
        (mkHome us hs false [] []) sn su2).fst)
        (mkHome us hs false [] []) sn).fst) r hs).map
        (fun b => b.status) = some BindStatus.declined ∧
    (findBind ((inviteUIDToShare ((homeDeclineShare ((homeAcceptShare
        (inviteUIDToShare (twoHomeStore uo us nm ho hs r eid false false [] ns tr [])
          (ownRec ho r eid nm none) us mode su1 (some sn)).fst
        (mkHome us hs false [] []) sn su2).fst)
        (mkHome us hs false [] []) sn).fst)
        (ownRec ho r eid nm none) us mode none none).fst) r hs).map
        (fun b => b.status) = some BindStatus.invited := by
  refine ⟨?_, ?_, ?_, ?_, ?_⟩
  · cases s0 <;> by_cases hmm : mode2 = m0 <;>
      simp [inviteUIDToShare, shareeViewOf, createShare, shareWith, homeWithUIDCreate,
        findHomeByUID, findHomeByRID, findBind, mkStore, mkHome, ownRec, shareeRec,
        twoHomeStore, huid, hho, hmm, updateShare, ColumnMap.isEmpty, insertBindRow, emit,
        setShared, updateBindColumns, notifyPropertyChanged, notifyChanged,
        viewerHomeExternal, sendExternalInvite, ownerHomeOf, ownBind, invalidateQueryCache,
        applyColumnMap, initSyncToken, initBindRevision, changedStatus, deletedSyncToken,
        updateHome, Home.addChild, Home.popChild, sendInviteNotification,
        writeNotificationObject, Ne.symm hho, Ne.symm huid]
  all_goals
    simp [inviteUIDToShare, homeAcceptShare, homeDeclineShare, acceptShare, declineShare,
      anyObjectWithShareUID, shareeViewOf, createShare, shareWith, homeWithUIDCreate,
      findHomeByUID, findHomeByRID, findBind, mkStore, mkHome, ownRec, twoHomeStore,
      huid, hho, hdir, hown, updateShare, ColumnMap.isEmpty, insertBindRow, emit, setShared,
      updateBindColumns, notifyPropertyChanged, notifyChanged, viewerHomeExternal,
      viewExternal, sendExternalInvite, replyExternalInvite, ownerHomeOf, ownBind,
      invalidateQueryCache, applyColumnMap, initSyncToken, initBindRevision, changedStatus,
      deletedSyncToken, updateHome, Home.addChild, Home.popChild, sendInviteNotification,
      sendReplyNotification, writeNotificationObject, Ne.symm hho, Ne.symm huid]

theorem C2_witness :
    (inviteUIDToShare
        (twoHomeStore ("o") ("s") ("cal") 1 2 10 none false false
          [shareeRec 2 10 none ("e") BindMode.read BindStatus.declined none] [] [] [])
        (ownRec 1 10 none ("cal") none) ("s") BindMode.write none none).snd.map
        (fun b => (b.status, b.mode))
      = some (BindStatus.invited, BindMode.write) := by
  simpa using (C2_inviteUIDToShare_reinvite ("o") ("s") ("cal") ("n1") ("e") 1 2 10 none
    BindMode.read BindMode.read BindMode.write BindStatus.declined none none none [] []
    (by decide) (by decide) (by decide) (by decide)).1

/-! ## Claim C3 -/

/-- Claim C3: `directShareWithUser` is idempotent — with no prior bind it
creates exactly one DIRECT-mode accepted bind, runs the first-share
(`newShare`) hook, federates the invite exactly when the sharee home is
external, and writes no notification; a second call performs no mutation at
all and returns the existing sharee view. -/
theorem C3_directShareWithUser_idempotent (uo us nm dn dn2 : String) (ho hs r : Nat)
    (eid : Option Nat) (extS : Bool) (ns : List Notification) (tr : List Event)
    (huid : uo ≠ us) (hho : ho ≠ hs) :
    (directShareWithUser (twoHomeStore uo us nm ho hs r eid false extS [] ns tr [])
        (ownRec ho r eid nm none) us (some dn)).snd
      = some
          { homeResourceID := hs, resourceID := r, externalID := eid, name := dn,
            mode := BindMode.direct, status := BindStatus.accepted, message := none,
            revision := some 1 } ∧
    (directShareWithUser (twoHomeStore uo us nm ho hs r eid false extS [] ns tr [])
        (ownRec ho r eid nm none) us (some dn)).fst.binds.filter
        (fun b => b.resourceID == r && b.homeResourceID == hs)
      = [{ homeResourceID := hs, resourceID := r, externalID := eid, name := dn,
           mode := BindMode.direct, status := BindStatus.accepted, message := none,
           revision := some 1 }] ∧
    (directShareWithUser (twoHomeStore uo us nm ho hs r eid false extS [] ns tr [])
        (ownRec ho r eid nm none) us (some dn)).fst.notifications = ns ∧
    (directShareWithUser (twoHomeStore uo us nm ho hs r eid false extS [] ns tr [])
        (ownRec ho r eid nm none) us (some dn)).fst.trace
      = tr ++
          [Event.bindInsert
              { homeResourceID := hs, resourceID := r, externalID := eid, name := dn,
                mode := BindMode.direct, status := BindStatus.accepted, message := none,
                revision := none },
            Event.initSyncToken hs r,
            Event.bindUpdate r hs
              { mode := none, status := none, message := none, revision := some 1 },
            Event.invalidateCache hs r,
            Event.bindUpdate r ho
              { mode := none, status := none, message := some (some ("shared")),
                revision := none },
            Event.invalidateCache ho r,
            Event.notifyPropertyChanged r,
            Event.notifyPropertyChanged r,
            Event.notifyChanged hs,
            Event.newShareHook hs r] ++
          (if extS then [Event.conduitInvite uo r nm us dn BindMode.direct none] else []) ∧
    directShareWithUser
        (directShareWithUser (twoHomeStore uo us nm ho hs r eid false extS [] ns tr [])
          (ownRec ho r eid nm none) us (some dn)).fst
        (ownRec ho r eid nm none) us (some dn2)
      = ((directShareWithUser (twoHomeStore uo us nm ho hs r eid false extS [] ns tr [])
            (ownRec ho r eid nm none) us (some dn)).fst,
         some
           { homeResourceID := hs, resourceID := r, externalID := eid, name := dn,
             mode := BindMode.direct, status := BindStatus.accepted, message := none,
             revision := some 1 }) := by
  refine ⟨?_, ?_, ?_, ?_, ?_⟩ <;>
  · cases extS <;>
      simp [directShareWithUser, shareeViewOf, createShare, shareWith, homeWithUIDCreate,
        findHomeByUID, findHomeByRID, findBind, mkStore, mkHome, ownRec, twoHomeStore,
        huid, hho, updateShare, insertBindRow, emit, setShared, updateBindColumns,
        notifyPropertyChanged, notifyChanged, viewerHomeExternal, sendExternalInvite,
        ownerHomeOf, ownBind, invalidateQueryCache, applyColumnMap, initSyncToken,
        initBindRevision, sendInviteNotification, writeNotificationObject,
        Ne.symm hho, Ne.symm huid]

theorem C3_witness :
    (directShareWithUser (twoHomeStore ("o") ("s") ("cal") 1 2 10 none false false [] [] [] [])
        (ownRec 1 10 none ("cal") none) ("s") (some ("d1"))).snd
      = some
          { homeResourceID := 2, resourceID := 10, externalID := none, name := "d1",
            mode := BindMode.direct, status := BindStatus.accepted, message := none,
            revision := some 1 } :=
  (C3_directShareWithUser_idempotent ("o") ("s") ("cal") ("d1") ("d2") 1 2 10 none false
    [] [] (by decide) (by decide)).1

theorem C9_witness :
    ∃ hm', findHomeByRID
        (updateShare c7st c7sv none (some BindStatus.accepted) none).fst
        c7sv.homeResourceID = some hm' ∧
      c7sv.name ∈ hm'.childNames ∧ c7sv.resourceID ∈ hm'.childIDs :=
  (C9_child_index_follows_status c7st c7sv (mkHome ("s") 2 false [] [])
    (by decide)).1 (by decide)

end SqlSharing
